import Mathlib

/-!
# Verification of the DISCO asynchronous operation completion monitor

Shallow embedding of the `DISCOCheck` class of
`cinder/volume/drivers/disco/disco.py` (lines 468-546), the polling state
machine that repeatedly queries the detail of a long-running DISCO
operation (snapshot / restore / clone) until it resolves to success,
failure or timeout.

Modelling choices:

* A reply from the remote API is a record of the dictionary fields the
  monitor reads; `Option` marks a field that may be absent.  A reply that
  is Python `None` is `Option ReplyData` being `none`.
* Python exceptions escaping one loop iteration are reified in
  `PyError`:  `VolumeBackendAPIException(data=msg)` carries, instead of
  the formatted string, exactly the data interpolated into the message at
  the raise site; subscripting `None` is `typeError`; a missing dictionary
  key is `keyError`.
* The environment of a run is a scripted list of polls: the k-th element
  gives the reply the client returns to the k-th status query together
  with the wall clock value `int(time.time())` observed inside
  `is_timeout` during that iteration.  `_monitor_request` folds
  `_retry_get_detail` over that list, counting the network calls issued.
-/

deriving instance DecidableEq for Except

/-- A nested info-result record of a DISCO detail reply: the structured
field holding an operation status code (`snapshotInfoResult.status` or
`restoreInfoResult.status`). -/
structure InfoResult where
  status : Int
deriving DecidableEq

/-- A reply from the remote DISCO API as the monitor reads it: the
top-level transport `status`, the top-level numeric `result` field, and
the two optional nested info-result records.  `none` in an optional field
models the dictionary key being absent; `result` is kept as the integer
`int(reply["result"])` parses to. -/
structure ReplyData where
  status : Int
  result : Option Int
  snapshotInfoResult : Option InfoResult
  restoreInfoResult : Option InfoResult
deriving DecidableEq

/-- The parameter dictionary handed to `DISCOCheck.__init__`; `none`
models an absent key. -/
structure Params where
  snapshot_id : Option Int
  restore_id : Option Int
  clone_id : Option Int
  vol_name : Option String
deriving DecidableEq

/-- A network call `_call_api` issues to the remote client, with its
arguments. -/
inductive ApiCall
  | snapshotDetail (snapshot_id : Int)
  | restoreDetail (restore_id : Int)
  | cloneDetail (clone_id : Int) (vol_name : String)
deriving DecidableEq

/-- The data interpolated into each distinct error message the monitor
builds.  `detailError` is the message of lines 487-489 ("Error while
getting %(op)s details, returned code: %(status)s"), built from the
operation name and the transport status and raised both at line 492
(query failure) and at line 497 (item status = failure); `timeoutMsg` is
the message of line 502 ("Timeout while calling %s"), holding only the
operation name; `unknownOp` is the message of lines 516 and 533-534;
`noneObject` is the message of line 523 ("Call returned a None object"). -/
inductive ErrMsg
  | detailError (op : String) (transport_status : Int)
  | timeoutMsg (op : String)
  | unknownOp (op : String)
  | noneObject
deriving DecidableEq

/-- A Python exception escaping a loop iteration:
`VolumeBackendAPIException(data=msg)`, the `TypeError` from subscripting
`None`, or the `KeyError` from a missing dictionary key. -/
inductive PyError
  | volumeBackendAPIException (msg : ErrMsg)
  | typeError
  | keyError (key : String)
deriving DecidableEq

/-- The module-level dictionary `DISCO_CODE_MAPPING` (lines 85-89). -/
def DISCO_CODE_MAPPING : List (String × Int) :=
  [("request.success", 1), ("request.ongoing", 2), ("request.failure", 3)]

/-- Lookup in `DISCO_CODE_MAPPING`.  Every lookup the monitor performs
uses a key present in the dictionary, so the `getD` default is never
reached. -/
def disco_code (key : String) : Int :=
  (DISCO_CODE_MAPPING.lookup key).getD 0

/-- `DISCOCheck.is_timeout` (lines 478-481):
`int(time.time()) - start_time > timeout`, with the `time.time()` reading
made an explicit argument `current_time`. -/
def is_timeout (current_time start_time timeout : Int) : Bool :=
  current_time - start_time > timeout

/-- `DISCOCheck._get_item_status` (lines 520-536): extract the operation
status code from a reply, branching on the operation kind.  A `None`
reply raises `VolumeBackendAPIException` ("Call returned a None object");
`snapshot_detail` reads `reply["snapshotInfoResult"]["status"]`,
`restore_detail` reads `reply["restoreInfoResult"]["status"]`,
`clone_detail` reads `int(reply["result"])`; any other operation raises
`VolumeBackendAPIException` ("Unknown operation").  A missing dictionary
key is a Python `KeyError`. -/
def _get_item_status (operation : String) (reply : Option ReplyData) :
    Except PyError Int :=
  match reply with
  | none => .error (.volumeBackendAPIException .noneObject)
  | some r =>
    if operation = "snapshot_detail" then
      match r.snapshotInfoResult with
      | some info => .ok info.status
      | none => .error (.keyError "snapshotInfoResult")
    else if operation = "restore_detail" then
      match r.restoreInfoResult with
      | some info => .ok info.status
      | none => .error (.keyError "restoreInfoResult")
    else if operation = "clone_detail" then
      match r.result with
      | some v => .ok v
      | none => .error (.keyError "result")
    else .error (.volumeBackendAPIException (.unknownOp operation))

/-- `DISCOCheck._call_api` (lines 506-518): decide which network call to
issue from the operation kind and the parameter dictionary.  Returns the
call that reaches the client, or the exception raised before any network
call is made: `KeyError` for a missing parameter, or
`VolumeBackendAPIException` ("Unknown operation") for a kind outside
{snapshot_detail, restore_detail, clone_detail}. -/
def _call_api (operation : String) (params : Params) :
    Except PyError ApiCall :=
  if operation = "snapshot_detail" then
    match params.snapshot_id with
    | some i => .ok (.snapshotDetail i)
    | none => .error (.keyError "snapshot_id")
  else if operation = "restore_detail" then
    match params.restore_id with
    | some i => .ok (.restoreDetail i)
    | none => .error (.keyError "restore_id")
  else if operation = "clone_detail" then
    match params.clone_id, params.vol_name with
    | some i, some n => .ok (.cloneDetail i n)
    | none, _ => .error (.keyError "clone_id")
    | some _, none => .error (.keyError "vol_name")
  else .error (.volumeBackendAPIException (.unknownOp operation))

/-- Outcome of one invocation of `_retry_get_detail` by the looping
timer: `done reply` is `raise LoopingCallDone(retvalue=reply)` (line
500), stopping the loop with the reply as result; `returnedNone` is the
Python function falling off the end and returning `None`, letting the
fixed-interval loop run the next iteration; `raised e` is any other
exception, which aborts the loop and propagates. -/
inductive StepOutcome
  | done (retvalue : Option ReplyData)
  | returnedNone
  | raised (e : PyError)
deriving DecidableEq

/-- `DISCOCheck._retry_get_detail` (lines 483-504), one loop iteration:
call the API (`_call_api`); read `reply["status"]` (a `TypeError` when
the client returned `None`); raise the detail-error message if the
transport status is nonzero; extract the item status
(`_get_item_status`); raise the same detail-error message if it equals
`DISCO_CODE_MAPPING["request.failure"]`; stop with the reply as the
result if it equals `DISCO_CODE_MAPPING["request.success"]`; otherwise
raise the timeout message if `is_timeout`, else return `None`.
`client` gives the reply the remote client returns to the issued call;
`current_time` is the `time.time()` reading of this iteration. -/
def _retry_get_detail (start_time timeout : Int) (operation : String)
    (params : Params) (client : ApiCall → Option ReplyData)
    (current_time : Int) : StepOutcome :=
  match _call_api operation params with
  | .error e => .raised e
  | .ok call =>
    match client call with
    | none => .raised .typeError
    | some r =>
      let msg := ErrMsg.detailError operation r.status
      if r.status ≠ 0 then
        .raised (.volumeBackendAPIException msg)
      else
        match _get_item_status operation (some r) with
        | .error e => .raised e
        | .ok item_status =>
          if item_status = disco_code "request.failure" then
            .raised (.volumeBackendAPIException msg)
          else if item_status = disco_code "request.success" then
            .done (some r)
          else if is_timeout current_time start_time timeout then
            .raised (.volumeBackendAPIException (.timeoutMsg operation))
          else
            .returnedNone

/-- Terminal outcome of a monitored run: the success payload
(`LoopingCallDone` retvalue), a propagated exception, or `pending` when
the scripted environment ran out while the loop was still polling. -/
inductive Outcome
  | success (payload : Option ReplyData)
  | error (e : PyError)
  | pending
deriving DecidableEq

/-- Result of a monitored run: its outcome and how many network calls
(status queries) were issued. -/
structure RunResult where
  outcome : Outcome
  queries : Nat
deriving DecidableEq

/-- `DISCOCheck._monitor_request` (lines 538-546): drive
`_retry_get_detail` with a fixed-interval looping call until it stops the
loop or raises.  The environment is the scripted list of polls: the k-th
element is the client reply to the k-th query paired with the wall clock
reading of that iteration.  One network call is counted per iteration in
which `_call_api` reaches the client. -/
def _monitor_request (start_time timeout : Int) (operation : String)
    (params : Params) : List (Option ReplyData × Int) → RunResult
  | [] => ⟨.pending, 0⟩
  | (reply, now) :: rest =>
    let queried : Nat :=
      match _call_api operation params with
      | .ok _ => 1
      | .error _ => 0
    match _retry_get_detail start_time timeout operation params
        (fun _ => reply) now with
    | .done r => ⟨.success r, queried⟩
    | .raised e => ⟨.error e, queried⟩
    | .returnedNone =>
      let res := _monitor_request start_time timeout operation params rest
      ⟨res.outcome, queried + res.queries⟩

/-- One scripted poll whose reply the monitor interprets as ongoing and
whose wall clock reading has not yet passed the timeout: the reply is not
`None`, its transport status is 0, its extracted item status is
`DISCO_CODE_MAPPING["request.ongoing"]`, and `is_timeout` is false at
that iteration's clock reading. -/
def OngoingPoll (operation : String) (start_time timeout : Int)
    (p : Option ReplyData × Int) : Prop :=
  ∃ r, p.1 = some r ∧ r.status = 0
    ∧ _get_item_status operation (some r) = .ok (disco_code "request.ongoing")
    ∧ is_timeout p.2 start_time timeout = false

/-! ## Helper lemmas about one loop iteration -/

theorem retry_call_error {operation : String} {params : Params} {e : PyError}
    (start_time timeout : Int)
    (hcall : _call_api operation params = .error e)
    (client : ApiCall → Option ReplyData) (now : Int) :
    _retry_get_detail start_time timeout operation params client now
      = .raised e := by
  simp [_retry_get_detail, hcall]

theorem retry_transport_error {operation : String} {params : Params}
    {c : ApiCall} {r : ReplyData} (start_time timeout : Int)
    (hcall : _call_api operation params = .ok c)
    (hs : r.status ≠ 0) (now : Int) :
    _retry_get_detail start_time timeout operation params (fun _ => some r) now
      = .raised (.volumeBackendAPIException (.detailError operation r.status)) := by
  simp [_retry_get_detail, hcall, hs]

theorem retry_failure {operation : String} {params : Params}
    {c : ApiCall} {r : ReplyData} (start_time timeout : Int)
    (hcall : _call_api operation params = .ok c)
    (hs : r.status = 0)
    (hst : _get_item_status operation (some r)
      = .ok (disco_code "request.failure")) (now : Int) :
    _retry_get_detail start_time timeout operation params (fun _ => some r) now
      = .raised (.volumeBackendAPIException (.detailError operation 0)) := by
  simp [_retry_get_detail, hcall, hs, hst]

theorem retry_success {operation : String} {params : Params}
    {c : ApiCall} {r : ReplyData} (start_time timeout : Int)
    (hcall : _call_api operation params = .ok c)
    (hs : r.status = 0)
    (hst : _get_item_status operation (some r)
      = .ok (disco_code "request.success")) (now : Int) :
    _retry_get_detail start_time timeout operation params (fun _ => some r) now
      = .done (some r) := by
  simp [_retry_get_detail, hcall, hs, hst]
  decide

theorem retry_ongoing {operation : String} {params : Params}
    {c : ApiCall} {r : ReplyData} {s : Int} (start_time timeout : Int)
    (hcall : _call_api operation params = .ok c)
    (hs : r.status = 0)
    (hst : _get_item_status operation (some r) = .ok s)
    (hsf : s ≠ disco_code "request.failure")
    (hss : s ≠ disco_code "request.success")
    {now : Int} (htime : is_timeout now start_time timeout = false) :
    _retry_get_detail start_time timeout operation params (fun _ => some r) now
      = .returnedNone := by
  simp [_retry_get_detail, hcall, hs, hst, hsf, hss, htime]

theorem retry_ongoing_timeout {operation : String} {params : Params}
    {c : ApiCall} {r : ReplyData} {s : Int} (start_time timeout : Int)
    (hcall : _call_api operation params = .ok c)
    (hs : r.status = 0)
    (hst : _get_item_status operation (some r) = .ok s)
    (hsf : s ≠ disco_code "request.failure")
    (hss : s ≠ disco_code "request.success")
    {now : Int} (htime : is_timeout now start_time timeout = true) :
    _retry_get_detail start_time timeout operation params (fun _ => some r) now
      = .raised (.volumeBackendAPIException (.timeoutMsg operation)) := by
  simp [_retry_get_detail, hcall, hs, hst, hsf, hss, htime]

/-! ## Helper lemmas about the monitored run -/

theorem monitor_cons_done {operation : String} {params : Params}
    {c : ApiCall} {reply r : Option ReplyData} {now : Int}
    (start_time timeout : Int)
    (hcall : _call_api operation params = .ok c)
    (hstep : _retry_get_detail start_time timeout operation params
      (fun _ => reply) now = .done r)
    (rest : List (Option ReplyData × Int)) :
    _monitor_request start_time timeout operation params ((reply, now) :: rest)
      = ⟨.success r, 1⟩ := by
  simp [_monitor_request, hcall, hstep]

theorem monitor_cons_raised {operation : String} {params : Params}
    {c : ApiCall} {reply : Option ReplyData} {now : Int} {e : PyError}
    (start_time timeout : Int)
    (hcall : _call_api operation params = .ok c)
    (hstep : _retry_get_detail start_time timeout operation params
      (fun _ => reply) now = .raised e)
    (rest : List (Option ReplyData × Int)) :
    _monitor_request start_time timeout operation params ((reply, now) :: rest)
      = ⟨.error e, 1⟩ := by
  simp [_monitor_request, hcall, hstep]

theorem monitor_cons_continue {operation : String} {params : Params}
    {c : ApiCall} {reply : Option ReplyData} {now : Int}
    (start_time timeout : Int)
    (hcall : _call_api operation params = .ok c)
    (hstep : _retry_get_detail start_time timeout operation params
      (fun _ => reply) now = .returnedNone)
    (rest : List (Option ReplyData × Int)) :
    _monitor_request start_time timeout operation params ((reply, now) :: rest)
      = ⟨(_monitor_request start_time timeout operation params rest).outcome,
          1 + (_monitor_request start_time timeout operation params rest).queries⟩ := by
  simp [_monitor_request, hcall, hstep]


theorem disco_code_success : disco_code "request.success" = 1 := by decide

theorem disco_code_ongoing : disco_code "request.ongoing" = 2 := by decide

theorem disco_code_failure : disco_code "request.failure" = 3 := by decide

/-- `_get_item_status` never raises the timeout message: its error is a
`noneObject` or `unknownOp` exception or a `KeyError`. -/
theorem get_item_status_never_timeout_error (operation : String)
    (reply : Option ReplyData) (op2 : String) :
    _get_item_status operation reply
      ≠ .error (.volumeBackendAPIException (.timeoutMsg op2)) := by
  unfold _get_item_status
  cases reply with
  | none => simp
  | some r =>
    by_cases h1 : operation = "snapshot_detail"
    · cases hr : r.snapshotInfoResult <;> simp [h1, hr]
    · by_cases h2 : operation = "restore_detail"
      · cases hr : r.restoreInfoResult <;> simp [h1, h2, hr]
      · by_cases h3 : operation = "clone_detail"
        · cases hr : r.result <;> simp [h1, h2, h3, hr]
        · simp [h1, h2, h3]

/-! ## Claims -/

/-- C1: for every operation kind in {snapshot_detail, restore_detail,
clone_detail} (any kind and parameters `_call_api` accepts), if the three
scripted status queries resolve to the reply sequence
[Ongoing, Ongoing, Success] — transport status 0 each time, item status
`request.ongoing`, `request.ongoing`, `request.success` — and the timeout
has not passed at the two Ongoing iterations, then `_monitor_request`
terminates successfully with the Success reply as its result and issues
exactly 3 status queries. -/
theorem c1_ongoing_ongoing_success
    (start_time timeout t1 t2 t3 : Int) (operation : String) (params : Params)
    (c : ApiCall) (r1 r2 r3 : ReplyData)
    (hcall : _call_api operation params = .ok c)
    (h1s : r1.status = 0) (h2s : r2.status = 0) (h3s : r3.status = 0)
    (h1 : _get_item_status operation (some r1) = .ok (disco_code "request.ongoing"))
    (h2 : _get_item_status operation (some r2) = .ok (disco_code "request.ongoing"))
    (h3 : _get_item_status operation (some r3) = .ok (disco_code "request.success"))
    (ht1 : is_timeout t1 start_time timeout = false)
    (ht2 : is_timeout t2 start_time timeout = false) :
    _monitor_request start_time timeout operation params
        [(some r1, t1), (some r2, t2), (some r3, t3)]
      = ⟨.success (some r3), 3⟩ := by
  have s1 := retry_ongoing start_time timeout hcall h1s h1
    (by decide) (by decide) ht1
  have s2 := retry_ongoing start_time timeout hcall h2s h2
    (by decide) (by decide) ht2
  have s3 := retry_success start_time timeout hcall h3s h3 t3
  rw [monitor_cons_continue start_time timeout hcall s1,
    monitor_cons_continue start_time timeout hcall s2,
    monitor_cons_done start_time timeout hcall s3]
  rfl

/-- C1 witness: the theorem holds with concrete replies for each of the
three operation kinds. -/
theorem c1_ongoing_ongoing_success_witness :
    _monitor_request 0 3600 "snapshot_detail" ⟨some 5, none, none, none⟩
        [(some ⟨0, none, some ⟨2⟩, none⟩, 1),
         (some ⟨0, none, some ⟨2⟩, none⟩, 2),
         (some ⟨0, none, some ⟨1⟩, none⟩, 3)]
      = ⟨.success (some ⟨0, none, some ⟨1⟩, none⟩), 3⟩
    ∧ _monitor_request 0 3600 "restore_detail" ⟨none, some 6, none, none⟩
        [(some ⟨0, none, none, some ⟨2⟩⟩, 1),
         (some ⟨0, none, none, some ⟨2⟩⟩, 2),
         (some ⟨0, none, none, some ⟨1⟩⟩, 3)]
      = ⟨.success (some ⟨0, none, none, some ⟨1⟩⟩), 3⟩
    ∧ _monitor_request 0 3600 "clone_detail" ⟨none, none, some 7, some "v"⟩
        [(some ⟨0, some 2, none, none⟩, 1),
         (some ⟨0, some 2, none, none⟩, 2),
         (some ⟨0, some 1, none, none⟩, 3)]
      = ⟨.success (some ⟨0, some 1, none, none⟩), 3⟩ := by
  refine ⟨?_, ?_, ?_⟩
  · exact c1_ongoing_ongoing_success 0 3600 1 2 3 "snapshot_detail"
      ⟨some 5, none, none, none⟩ (.snapshotDetail 5)
      ⟨0, none, some ⟨2⟩, none⟩ ⟨0, none, some ⟨2⟩, none⟩
      ⟨0, none, some ⟨1⟩, none⟩ (by decide) rfl rfl rfl
      (by decide) (by decide) (by decide) (by decide) (by decide)
  · exact c1_ongoing_ongoing_success 0 3600 1 2 3 "restore_detail"
      ⟨none, some 6, none, none⟩ (.restoreDetail 6)
      ⟨0, none, none, some ⟨2⟩⟩ ⟨0, none, none, some ⟨2⟩⟩
      ⟨0, none, none, some ⟨1⟩⟩ (by decide) rfl rfl rfl
      (by decide) (by decide) (by decide) (by decide) (by decide)
  · exact c1_ongoing_ongoing_success 0 3600 1 2 3 "clone_detail"
      ⟨none, none, some 7, some "v"⟩ (.cloneDetail 7 "v")
      ⟨0, some 2, none, none⟩ ⟨0, some 2, none, none⟩
      ⟨0, some 1, none, none⟩ (by decide) rfl rfl rfl
      (by decide) (by decide) (by decide) (by decide) (by decide)

/-- C2: status extraction branches on the operation kind exactly as the
field table prescribes.  For clone_detail the status code is the
top-level numeric `result` field itself — a reply `rc` with
`result = 1` and no nested info-result field resolves to
`request.success` — while for snapshot_detail it is the nested
`snapshotInfoResult.status` field and for restore_detail the nested
`restoreInfoResult.status` field: a snapshot_detail reply `rs` with
top-level `result = 1` but `snapshotInfoResult.status = 2` is
interpreted as `request.ongoing`, not success. -/
theorem c2_status_extraction_table
    (rs rc : ReplyData)
    (hrs1 : rs.result = some 1)
    (hrs2 : rs.snapshotInfoResult = some ⟨2⟩)
    (hrc1 : rc.result = some 1)
    (hrc2 : rc.snapshotInfoResult = none)
    (hrc3 : rc.restoreInfoResult = none) :
    _get_item_status "clone_detail" (some rc)
      = .ok (disco_code "request.success")
    ∧ _get_item_status "snapshot_detail" (some rs)
      = .ok (disco_code "request.ongoing")
    ∧ (∀ r info, r.snapshotInfoResult = some info →
        _get_item_status "snapshot_detail" (some r) = .ok info.status)
    ∧ (∀ r info, r.restoreInfoResult = some info →
        _get_item_status "restore_detail" (some r) = .ok info.status)
    ∧ (∀ r v, r.result = some v →
        _get_item_status "clone_detail" (some r) = .ok v) := by
  refine ⟨?_, ?_, ?_, ?_, ?_⟩
  · simp [_get_item_status, hrc1, disco_code_success]
  · simp [_get_item_status, hrs2, disco_code_ongoing]
  · intro r info h
    simp [_get_item_status, h]
  · intro r info h
    simp [_get_item_status, h]
  · intro r v h
    simp [_get_item_status, h]

/-- C2 witness: the extraction table instantiated at concrete replies. -/
theorem c2_status_extraction_table_witness :
    _get_item_status "clone_detail" (some ⟨0, some 1, none, none⟩)
      = .ok (disco_code "request.success")
    ∧ _get_item_status "snapshot_detail" (some ⟨0, some 1, some ⟨2⟩, none⟩)
      = .ok (disco_code "request.ongoing")
    ∧ (∀ r info, r.snapshotInfoResult = some info →
        _get_item_status "snapshot_detail" (some r) = .ok info.status)
    ∧ (∀ r info, r.restoreInfoResult = some info →
        _get_item_status "restore_detail" (some r) = .ok info.status)
    ∧ (∀ r v, r.result = some v →
        _get_item_status "clone_detail" (some r) = .ok v) :=
  c2_status_extraction_table ⟨0, some 1, some ⟨2⟩, none⟩ ⟨0, some 1, none, none⟩
    rfl rfl rfl rfl rfl

/-- C3: in a loop iteration the timeout condition is evaluated only after
the extracted status has been checked against failure and success.  With
the timeout already exceeded at this iteration's clock reading: a reply
resolving to `request.success` still stops the loop with that reply as
the result (not a timeout error), a reply resolving to
`request.failure` still raises the failure error (not a timeout
error), and the timeout message can be raised only when the extracted
status was neither success nor failure. -/
theorem c3_timeout_checked_after_status
    (start_time timeout now : Int) (operation : String) (params : Params)
    (c : ApiCall) (r : ReplyData)
    (hcall : _call_api operation params = .ok c)
    (hs : r.status = 0)
    (ht : is_timeout now start_time timeout = true) :
    (_get_item_status operation (some r) = .ok (disco_code "request.success") →
      _retry_get_detail start_time timeout operation params (fun _ => some r) now
        = .done (some r))
    ∧ (_get_item_status operation (some r) = .ok (disco_code "request.failure") →
      _retry_get_detail start_time timeout operation params (fun _ => some r) now
        = .raised (.volumeBackendAPIException (.detailError operation 0)))
    ∧ (_retry_get_detail start_time timeout operation params (fun _ => some r) now
        = .raised (.volumeBackendAPIException (.timeoutMsg operation)) →
      ∃ s, _get_item_status operation (some r) = .ok s
        ∧ s ≠ disco_code "request.success"
        ∧ s ≠ disco_code "request.failure") := by
  refine ⟨?_, ?_, ?_⟩
  · intro hst
    exact retry_success start_time timeout hcall hs hst now
  · intro hst
    exact retry_failure start_time timeout hcall hs hst now
  · intro hstep
    cases hst : _get_item_status operation (some r) with
    | error e =>
      exfalso
      rw [_retry_get_detail, hcall] at hstep
      simp [hs, hst] at hstep
      subst hstep
      exact get_item_status_never_timeout_error operation (some r) operation hst
    | ok s =>
      refine ⟨s, rfl, ?_, ?_⟩
      · intro hcontra
        rw [retry_success start_time timeout hcall hs (hcontra ▸ hst) now]
          at hstep
        exact StepOutcome.noConfusion hstep
      · intro hcontra
        rw [retry_failure start_time timeout hcall hs (hcontra ▸ hst) now]
          at hstep
        simp at hstep

/-- C3 witness: with the deadline already passed (clock 9999, timeout 10),
a success reply still stops the monitor with the reply. -/
theorem c3_timeout_checked_after_status_witness :
    (_get_item_status "snapshot_detail" (some ⟨0, none, some ⟨1⟩, none⟩)
        = .ok (disco_code "request.success") →
      _retry_get_detail 0 10 "snapshot_detail" ⟨some 5, none, none, none⟩
          (fun _ => some ⟨0, none, some ⟨1⟩, none⟩) 9999
        = .done (some ⟨0, none, some ⟨1⟩, none⟩))
    ∧ (_get_item_status "snapshot_detail" (some ⟨0, none, some ⟨1⟩, none⟩)
        = .ok (disco_code "request.failure") →
      _retry_get_detail 0 10 "snapshot_detail" ⟨some 5, none, none, none⟩
          (fun _ => some ⟨0, none, some ⟨1⟩, none⟩) 9999
        = .raised (.volumeBackendAPIException (.detailError "snapshot_detail" 0)))
    ∧ (_retry_get_detail 0 10 "snapshot_detail" ⟨some 5, none, none, none⟩
          (fun _ => some ⟨0, none, some ⟨1⟩, none⟩) 9999
        = .raised (.volumeBackendAPIException (.timeoutMsg "snapshot_detail")) →
      ∃ s, _get_item_status "snapshot_detail" (some ⟨0, none, some ⟨1⟩, none⟩)
          = .ok s
        ∧ s ≠ disco_code "request.success"
        ∧ s ≠ disco_code "request.failure") :=
  c3_timeout_checked_after_status 0 10 9999 "snapshot_detail"
    ⟨some 5, none, none, none⟩ (.snapshotDetail 5) ⟨0, none, some ⟨1⟩, none⟩
    (by decide) rfl (by decide)

/-- C4: if the scripted status queries resolve to the reply sequence
[Ongoing, Failure] and the timeout has not passed at the first
iteration, the monitor aborts with the operation-failed error after
exactly 2 queries and never issues a third query (the result is
independent of any further scripted polls `rest`). -/
theorem c4_ongoing_failure_two_queries
    (start_time timeout t1 t2 : Int) (operation : String) (params : Params)
    (c : ApiCall) (r1 r2 : ReplyData)
    (rest : List (Option ReplyData × Int))
    (hcall : _call_api operation params = .ok c)
    (h1s : r1.status = 0) (h2s : r2.status = 0)
    (h1 : _get_item_status operation (some r1) = .ok (disco_code "request.ongoing"))
    (h2 : _get_item_status operation (some r2) = .ok (disco_code "request.failure"))
    (ht1 : is_timeout t1 start_time timeout = false) :
    _monitor_request start_time timeout operation params
        ((some r1, t1) :: (some r2, t2) :: rest)
      = ⟨.error (.volumeBackendAPIException (.detailError operation 0)), 2⟩ := by
  have s1 := retry_ongoing start_time timeout hcall h1s h1
    (by decide) (by decide) ht1
  have s2 := retry_failure start_time timeout hcall h2s h2 t2
  rw [monitor_cons_continue start_time timeout hcall s1,
    monitor_cons_raised start_time timeout hcall s2]
  rfl

/-- C4 witness: a concrete [Ongoing, Failure] run with a third scripted
poll that is never consumed. -/
theorem c4_ongoing_failure_two_queries_witness :
    _monitor_request 0 3600 "snapshot_detail" ⟨some 5, none, none, none⟩
        [(some ⟨0, none, some ⟨2⟩, none⟩, 1),
         (some ⟨0, none, some ⟨3⟩, none⟩, 2),
         (some ⟨0, none, some ⟨1⟩, none⟩, 3)]
      = ⟨.error (.volumeBackendAPIException
          (.detailError "snapshot_detail" 0)), 2⟩ :=
  c4_ongoing_failure_two_queries 0 3600 1 2 "snapshot_detail"
    ⟨some 5, none, none, none⟩ (.snapshotDetail 5)
    ⟨0, none, some ⟨2⟩, none⟩ ⟨0, none, some ⟨3⟩, none⟩
    [(some ⟨0, none, some ⟨1⟩, none⟩, 3)]
    (by decide) rfl rfl (by decide) (by decide) (by decide)

/-- C5: if the first scripted reply carries a nonzero transport status,
the monitor aborts with the query-failure error (the detail-error
message carrying the operation and that transport status) after exactly
1 query, without consuming any further scripted poll and regardless of
the reply's payload fields — the payload is never interpreted as an
operation status. -/
theorem c5_transport_error_one_query
    (start_time timeout t : Int) (operation : String) (params : Params)
    (c : ApiCall) (r : ReplyData)
    (rest : List (Option ReplyData × Int))
    (hcall : _call_api operation params = .ok c)
    (hs : r.status ≠ 0) :
    _monitor_request start_time timeout operation params ((some r, t) :: rest)
      = ⟨.error (.volumeBackendAPIException
          (.detailError operation r.status)), 1⟩ := by
  have s1 := retry_transport_error start_time timeout hcall hs t
  rw [monitor_cons_raised start_time timeout hcall s1]

/-- C5 witness: a first reply with transport status 5 — whose payload
would extract to a success status — aborts after exactly 1 query with
the query-failure error, not a success. -/
theorem c5_transport_error_one_query_witness :
    _monitor_request 0 3600 "snapshot_detail" ⟨some 5, none, none, none⟩
        [(some ⟨5, some 1, some ⟨1⟩, none⟩, 1),
         (some ⟨0, none, some ⟨1⟩, none⟩, 2)]
      = ⟨.error (.volumeBackendAPIException
          (.detailError "snapshot_detail" 5)), 1⟩ :=
  c5_transport_error_one_query 0 3600 1 "snapshot_detail"
    ⟨some 5, none, none, none⟩ (.snapshotDetail 5)
    ⟨5, some 1, some ⟨1⟩, none⟩ [(some ⟨0, none, some ⟨1⟩, none⟩, 2)]
    (by decide) (by decide)

/-- C6: with every reply Ongoing, the monitor raises the timeout error
exactly when the wall clock elapsed since monitor entry (`start_time`,
fixed across iterations — not the most recent poll) first strictly
exceeds the timeout budget.  `is_timeout` holds iff
`timeout < current - start_time`; over any prefix of Ongoing polls whose
clock readings satisfy elapsed ≤ timeout the monitor keeps polling and
raises nothing (one query per poll); and appending one more Ongoing poll
whose clock reading strictly exceeds the budget makes it raise the
timeout error at that iteration. -/
theorem c6_all_ongoing_timeout_strict
    (start_time timeout t : Int) (operation : String) (params : Params)
    (c : ApiCall) (polls : List (Option ReplyData × Int)) (r : ReplyData)
    (rest : List (Option ReplyData × Int))
    (hcall : _call_api operation params = .ok c)
    (hall : ∀ p ∈ polls, OngoingPoll operation start_time timeout p)
    (hr : r.status = 0)
    (hst : _get_item_status operation (some r)
      = .ok (disco_code "request.ongoing"))
    (ht : timeout < t - start_time) :
    (∀ current : Int,
      is_timeout current start_time timeout = true
        ↔ timeout < current - start_time)
    ∧ _monitor_request start_time timeout operation params polls
      = ⟨.pending, polls.length⟩
    ∧ _monitor_request start_time timeout operation params
        (polls ++ (some r, t) :: rest)
      = ⟨.error (.volumeBackendAPIException (.timeoutMsg operation)),
          polls.length + 1⟩ := by
  refine ⟨?_, ?_, ?_⟩
  · intro current
    simp [is_timeout]
  all_goals
    induction polls with
    | nil =>
      first
      | rfl
      | · have st := retry_ongoing_timeout start_time timeout hcall hr hst
            (by decide) (by decide)
            (show is_timeout t start_time timeout = true by
              simp [is_timeout]; omega)
          rw [List.nil_append,
            monitor_cons_raised start_time timeout hcall st rest]
          rfl
    | cons p ps ih =>
      obtain ⟨rp, hp1, hp2, hp3, hp4⟩ := hall p (List.mem_cons_self p ps)
      have hub : ∀ q ∈ ps, OngoingPoll operation start_time timeout q :=
        fun q hq => hall q (List.mem_cons_of_mem p hq)
      have st := retry_ongoing start_time timeout hcall hp2 hp3
        (by decide) (by decide) hp4
      obtain ⟨pr, pt⟩ := p
      simp only at hp1
      subst hp1
      first
      | · rw [monitor_cons_continue start_time timeout hcall st ps, ih hub]
          simp [Nat.add_comm]
      | · rw [List.cons_append,
            monitor_cons_continue start_time timeout hcall st
              (ps ++ (some r, t) :: rest), ih hub]
          simp [Nat.add_comm]

/-- C6 witness: with timeout 10 and clock readings 5, 10 (elapsed equal
to the budget keeps polling) the run is still pending after 2 queries;
a third Ongoing poll at clock 11 raises the timeout error. -/
theorem c6_all_ongoing_timeout_strict_witness :
    (∀ current : Int, is_timeout current 0 10 = true ↔ 10 < current - 0)
    ∧ _monitor_request 0 10 "snapshot_detail" ⟨some 5, none, none, none⟩
        [(some ⟨0, none, some ⟨2⟩, none⟩, 5),
         (some ⟨0, none, some ⟨2⟩, none⟩, 10)]
      = ⟨.pending, 2⟩
    ∧ _monitor_request 0 10 "snapshot_detail" ⟨some 5, none, none, none⟩
        ([(some ⟨0, none, some ⟨2⟩, none⟩, 5),
          (some ⟨0, none, some ⟨2⟩, none⟩, 10)]
          ++ [(some ⟨0, none, some ⟨2⟩, none⟩, 11)])
      = ⟨.error (.volumeBackendAPIException (.timeoutMsg "snapshot_detail")), 3⟩ :=
  c6_all_ongoing_timeout_strict 0 10 11 "snapshot_detail"
    ⟨some 5, none, none, none⟩ (.snapshotDetail 5)
    [(some ⟨0, none, some ⟨2⟩, none⟩, 5), (some ⟨0, none, some ⟨2⟩, none⟩, 10)]
    ⟨0, none, some ⟨2⟩, none⟩ []
    (by decide)
    (by
      intro p hp
      simp only [List.mem_cons, List.mem_singleton] at hp
      rcases hp with h | h | h
      · exact h ▸ ⟨⟨0, none, some ⟨2⟩, none⟩, rfl, rfl, by decide, by decide⟩
      · exact h ▸ ⟨⟨0, none, some ⟨2⟩, none⟩, rfl, rfl, by decide, by decide⟩
      · cases h)
    rfl (by decide) (by decide)

/-- C7: for any operation kind outside
{snapshot_detail, restore_detail, clone_detail}, `_call_api` raises the
unknown-operation error before reaching the client, and the monitored
run aborts with that error having issued zero network calls, for any
parameters and any scripted environment. -/
theorem c7_unknown_kind_zero_queries
    (start_time timeout t : Int) (operation : String) (params : Params)
    (reply : Option ReplyData) (rest : List (Option ReplyData × Int))
    (hop1 : operation ≠ "snapshot_detail")
    (hop2 : operation ≠ "restore_detail")
    (hop3 : operation ≠ "clone_detail") :
    _call_api operation params
      = .error (.volumeBackendAPIException (.unknownOp operation))
    ∧ _monitor_request start_time timeout operation params
        ((reply, t) :: rest)
      = ⟨.error (.volumeBackendAPIException (.unknownOp operation)), 0⟩ := by
  have hcall : _call_api operation params
      = .error (.volumeBackendAPIException (.unknownOp operation)) := by
    simp [_call_api, hop1, hop2, hop3]
  refine ⟨hcall, ?_⟩
  have st := retry_call_error start_time timeout hcall (fun _ => reply) t
  simp [_monitor_request, hcall, st]

/-- C7 witness: the operation "volume_detail" aborts with the
unknown-operation error and zero queries, with a success reply scripted
that is never requested. -/
theorem c7_unknown_kind_zero_queries_witness :
    _call_api "volume_detail" ⟨some 5, some 6, some 7, some "v"⟩
      = .error (.volumeBackendAPIException (.unknownOp "volume_detail"))
    ∧ _monitor_request 0 3600 "volume_detail" ⟨some 5, some 6, some 7, some "v"⟩
        [(some ⟨0, none, some ⟨1⟩, none⟩, 1)]
      = ⟨.error (.volumeBackendAPIException (.unknownOp "volume_detail")), 0⟩ :=
  c7_unknown_kind_zero_queries 0 3600 1 "volume_detail"
    ⟨some 5, some 6, some 7, some "v"⟩ (some ⟨0, none, some ⟨1⟩, none⟩) []
    (by decide) (by decide) (by decide)

/-- C8: a `None` reply does abort the monitor immediately after 1 query —
it is never interpreted as Ongoing and the loop never continues — but
not with the invalid-reply error the claim names: `_retry_get_detail`
reads `reply["status"]` (line 486) before `_get_item_status`'s
`reply is None` guard (lines 522-525) can run, so the run aborts with
the `TypeError` from subscripting `None`, and the "Call returned a None
object" `VolumeBackendAPIException` — which the guard would produce —
is never raised. -/
theorem c8_none_reply_aborts_with_typeerror :
    _monitor_request 0 3600 "snapshot_detail" ⟨some 5, none, none, none⟩
        [(none, 1), (some ⟨0, none, some ⟨1⟩, none⟩, 2)]
      = ⟨.error .typeError, 1⟩
    ∧ _get_item_status "snapshot_detail" none
      = .error (.volumeBackendAPIException .noneObject)
    ∧ PyError.typeError ≠ .volumeBackendAPIException .noneObject := by
  decide

/-- C9 counterexample: the timeout error value does not preserve the
elapsed time.  Two all-Ongoing runs against the same monitor state whose
timeouts fire at different elapsed times (11 and 5000 seconds past a
budget of 10) surface the exact same error value, so the elapsed time is
lost. -/
theorem c9_counterexample_elapsed_time_lost :
    _monitor_request 0 10 "snapshot_detail" ⟨some 5, none, none, none⟩
        [(some ⟨0, none, some ⟨2⟩, none⟩, 11)]
      = ⟨.error (.volumeBackendAPIException (.timeoutMsg "snapshot_detail")), 1⟩
    ∧ _monitor_request 0 10 "snapshot_detail" ⟨some 5, none, none, none⟩
        [(some ⟨0, none, some ⟨2⟩, none⟩, 5000)]
      = ⟨.error (.volumeBackendAPIException (.timeoutMsg "snapshot_detail")), 1⟩
    ∧ (11 : Int) - 0 ≠ 5000 - 0 := by
  decide

/-- C9 amended: every error the monitor raises carries the operation
kind, and the query-failure error additionally carries the transport
status; but the operation-failed error reuses the query-status message —
carrying the transport status (0 on that path) rather than the item
status that triggered it — and the timeout error carries only the
operation kind, not the elapsed time: two iterations observing
different clock readings past the deadline raise identical errors. -/
theorem c9_amended_error_payloads
    (start_time timeout now1 now2 : Int) (operation : String)
    (params : Params) (c : ApiCall) (rf ro : ReplyData)
    (hcall : _call_api operation params = .ok c)
    (hfs : rf.status = 0)
    (hfail : _get_item_status operation (some rf)
      = .ok (disco_code "request.failure"))
    (hos : ro.status = 0)
    (hong : _get_item_status operation (some ro)
      = .ok (disco_code "request.ongoing"))
    (ht1 : is_timeout now1 start_time timeout = true)
    (ht2 : is_timeout now2 start_time timeout = true) :
    _retry_get_detail start_time timeout operation params
        (fun _ => some rf) now1
      = .raised (.volumeBackendAPIException (.detailError operation 0))
    ∧ _retry_get_detail start_time timeout operation params
        (fun _ => some ro) now1
      = .raised (.volumeBackendAPIException (.timeoutMsg operation))
    ∧ _retry_get_detail start_time timeout operation params
        (fun _ => some ro) now1
      = _retry_get_detail start_time timeout operation params
        (fun _ => some ro) now2 := by
  have h2 := retry_ongoing_timeout start_time timeout hcall hos hong
    (by decide) (by decide) ht1
  have h3 := retry_ongoing_timeout start_time timeout hcall hos hong
    (by decide) (by decide) ht2
  exact ⟨retry_failure start_time timeout hcall hfs hfail now1, h2,
    h2.trans h3.symm⟩

/-- C9 amended witness: a failure at item status 3 surfaces the
detail-error message with transport status 0, and timeouts at clocks 11
and 5000 surface the same error. -/
theorem c9_amended_error_payloads_witness :
    _retry_get_detail 0 10 "snapshot_detail" ⟨some 5, none, none, none⟩
        (fun _ => some ⟨0, none, some ⟨3⟩, none⟩) 11
      = .raised (.volumeBackendAPIException (.detailError "snapshot_detail" 0))
    ∧ _retry_get_detail 0 10 "snapshot_detail" ⟨some 5, none, none, none⟩
        (fun _ => some ⟨0, none, some ⟨2⟩, none⟩) 11
      = .raised (.volumeBackendAPIException (.timeoutMsg "snapshot_detail"))
    ∧ _retry_get_detail 0 10 "snapshot_detail" ⟨some 5, none, none, none⟩
        (fun _ => some ⟨0, none, some ⟨2⟩, none⟩) 11
      = _retry_get_detail 0 10 "snapshot_detail" ⟨some 5, none, none, none⟩
        (fun _ => some ⟨0, none, some ⟨2⟩, none⟩) 5000 :=
  c9_amended_error_payloads 0 10 11 5000 "snapshot_detail"
    ⟨some 5, none, none, none⟩ (.snapshotDetail 5)
    ⟨0, none, some ⟨3⟩, none⟩ ⟨0, none, some ⟨2⟩, none⟩
    (by decide) rfl (by decide) rfl (by decide) (by decide) (by decide)

/-- C10: for every extracted item status other than
`request.success` (1) and `request.failure` (3) — any integer, not only
the Ongoing code 2 — the iteration ends without a terminal outcome and
polling continues, unless the timeout has been exceeded, in which case
the timeout error is raised. -/
theorem c10_nonterminal_status_continues
    (start_time timeout t : Int) (operation : String) (params : Params)
    (c : ApiCall) (r : ReplyData) (s : Int)
    (hcall : _call_api operation params = .ok c)
    (hs : r.status = 0)
    (hst : _get_item_status operation (some r) = .ok s)
    (hss : s ≠ disco_code "request.success")
    (hsf : s ≠ disco_code "request.failure") :
    (is_timeout t start_time timeout = false →
      _retry_get_detail start_time timeout operation params
        (fun _ => some r) t = .returnedNone)
    ∧ (is_timeout t start_time timeout = true →
      _retry_get_detail start_time timeout operation params
        (fun _ => some r) t
        = .raised (.volumeBackendAPIException (.timeoutMsg operation))) :=
  ⟨fun htime => retry_ongoing start_time timeout hcall hs hst hsf hss htime,
   fun htime =>
     retry_ongoing_timeout start_time timeout hcall hs hst hsf hss htime⟩

/-- C10 witness: item status 7 — outside the documented set {1, 2, 3} —
continues the loop before the deadline and times out after it. -/
theorem c10_nonterminal_status_continues_witness :
    (is_timeout 5 0 10 = false →
      _retry_get_detail 0 10 "snapshot_detail" ⟨some 5, none, none, none⟩
        (fun _ => some ⟨0, none, some ⟨7⟩, none⟩) 5 = .returnedNone)
    ∧ (is_timeout 5 0 10 = true →
      _retry_get_detail 0 10 "snapshot_detail" ⟨some 5, none, none, none⟩
        (fun _ => some ⟨0, none, some ⟨7⟩, none⟩) 5
        = .raised (.volumeBackendAPIException (.timeoutMsg "snapshot_detail"))) :=
  c10_nonterminal_status_continues 0 10 5 "snapshot_detail"
    ⟨some 5, none, none, none⟩ (.snapshotDetail 5)
    ⟨0, none, some ⟨7⟩, none⟩ 7
    (by decide) rfl rfl (by decide) (by decide)
